import Mathlib

/-!
Shallow embedding of the frame-synchronization / swapchain-lifecycle core of
the chunklands-rs repository (src/src/game/vulkan/), for checking the
natural-language specification against the code.

The embedding follows src/src/game/vulkan/mod.rs (the `Vulkan` struct,
`draw_frame`, `change_framebuffer`, `Swapchain::destroy`, `InFlightFrame`),
src/src/game/vulkan/vk_physical_device.rs (`find_physical_device`),
src/src/game/vulkan/vk_swapchain.rs (`create_swapchain` image-count
computation) and src/src/game/vulkan/vk_vertex_buffer.rs
(`create_vertex_buffer` size/count computation).

Driver calls (fence waits, acquire, submit, present, device-idle waits) are
external effects: each `draw_frame` invocation receives a `DrawDriver` record
holding the outcome the driver returns for each call the code may make, and
the embedded functions additionally produce the ordered trace of driver
invocations as a `List Event`, so that ordering claims (wait-before-reuse,
idle-wait-before-release) are statable.  Opaque Vulkan object handles are
`Nat`; `vk::NULL_HANDLE` is `0`.
-/

namespace Chunklands

/-- vk-sys: `NULL_HANDLE`. -/
def NULL_HANDLE : Nat := 0

/-- vk-sys: `ERROR_OUT_OF_DATE_KHR` (`-1000001004i32` seen as `u32`, since the
crate's `Error::VulkanError` wraps a `u32` code). -/
def ERROR_OUT_OF_DATE_KHR : Nat := 3294966292

/-- vk-sys: `FENCE_CREATE_SIGNALED_BIT`. -/
def FENCE_CREATE_SIGNALED_BIT : Nat := 1

/-- vk-sys: `PHYSICAL_DEVICE_TYPE_DISCRETE_GPU` (enumeration value 2). -/
def PHYSICAL_DEVICE_TYPE_DISCRETE_GPU : Nat := 2

/-- src/src/game/vulkan/mod.rs line 36: `pub const MAX_FRAMES_IN_FLIGHT: usize = 2;` -/
def MAX_FRAMES_IN_FLIGHT : Nat := 2

/-- src/src/game/vulkan/error.rs: `pub enum Error { VulkanError(u32), Other(String) }`. -/
inductive Error where
  | VulkanError (code : Nat)
  | Other (msg : String)
deriving DecidableEq, Repr

/-- The pattern `if let Err(Error::VulkanError(vk::ERROR_OUT_OF_DATE_KHR))`
used at mod.rs lines 187 and 274. -/
def Error.isOutOfDate : Error → Bool
  | Error.VulkanError code => code = ERROR_OUT_OF_DATE_KHR
  | Error.Other _ => false

/-- A fence object: its handle and the `flags` of the `FenceCreateInfo` it was
created with (mod.rs `create_signaled_fence`, lines 544-556). -/
structure Fence where
  handle : Nat
  createFlags : Nat
deriving DecidableEq, Repr

/-- mod.rs lines 544-556: `create_signaled_fence` builds the fence with
`flags: vk::FENCE_CREATE_SIGNALED_BIT`.  The handle is driver-chosen. -/
def create_signaled_fence (h : Nat) : Fence :=
  { handle := h, createFlags := FENCE_CREATE_SIGNALED_BIT }

/-- A fence is created in the signaled state iff its creation flags contain
`FENCE_CREATE_SIGNALED_BIT`. -/
def Fence.createdSignaled (f : Fence) : Bool :=
  f.createFlags &&& FENCE_CREATE_SIGNALED_BIT ≠ 0

/-- mod.rs lines 486-490: `struct InFlightFrame`. -/
structure InFlightFrame where
  available_semaphore : Nat
  rendered_semaphore : Nat
  in_flight_fence : Fence
deriving DecidableEq, Repr

/-- mod.rs lines 492-499: `InFlightFrame::new` creates two semaphores and one
signaled fence.  Handles are drawn from a counter `next` standing for the
driver's (arbitrary, distinct) handle values. -/
def InFlightFrame.new (next : Nat) : InFlightFrame × Nat :=
  ({ available_semaphore := next,
     rendered_semaphore := next + 1,
     in_flight_fence := create_signaled_fence (next + 2) }, next + 3)

/-- mod.rs lines 100-104: the creation loop
`for _ in 0..MAX_FRAMES_IN_FLIGHT { inflight_frames.push(InFlightFrame::new(..)?) }`. -/
def mkInflightFrames : Nat → Nat → List InFlightFrame × Nat
  | 0, next => ([], next)
  | n + 1, next =>
    let (frame, next1) := InFlightFrame.new next
    let (frames, next2) := mkInflightFrames n next1
    (frame :: frames, next2)

/-- mod.rs lines 434-440: `struct SwapchainImage`; `in_flight_fence` is the
back-reference (a plain handle, `NULL_HANDLE` when unset). -/
structure SwapchainImage where
  image : Nat
  image_view : Nat
  framebuffer : Nat
  command_buffer : Nat
  in_flight_fence : Nat
deriving DecidableEq, Repr

/-- Driver-returned handles for one swapchain image during `Swapchain::new`
(mod.rs lines 455-474: `create_image_view`, `create_framebuffer`,
`create_command_buffer` outcomes). -/
structure ScImageInit where
  image : Nat
  image_view : Nat
  framebuffer : Nat
  command_buffer : Nat
deriving DecidableEq, Repr

/-- mod.rs lines 476-482: `SwapchainImage::new` stores the created handles and
sets `in_flight_fence: vk::NULL_HANDLE`. -/
def SwapchainImage.new (init : ScImageInit) : SwapchainImage :=
  { image := init.image
    image_view := init.image_view
    framebuffer := init.framebuffer
    command_buffer := init.command_buffer
    in_flight_fence := NULL_HANDLE }

/-- mod.rs lines 339-349: `struct Swapchain`. -/
structure Swapchain where
  images : List SwapchainImage
  swapchain : Nat
  pipeline : Nat
  pipeline_layout : Nat
  render_pass : Nat
  vertex_shader_module : Nat
  fragment_shader_module : Nat
  vertex_buffer : Nat
  vertex_buffer_memory : Nat
deriving DecidableEq, Repr

/-- Driver-returned handles during a successful `Swapchain::new`
(mod.rs lines 352-404): the swapchain handle, render pass, shader modules,
pipeline layout, pipeline, vertex buffer and memory, and the per-image
creation outcomes for every image of `get_swapchain_images_khr`. -/
structure SwapchainInit where
  swapchain : Nat
  render_pass : Nat
  vertex_shader_module : Nat
  fragment_shader_module : Nat
  pipeline_layout : Nat
  pipeline : Nat
  vertex_buffer : Nat
  vertex_buffer_memory : Nat
  images : List ScImageInit
deriving DecidableEq, Repr

/-- mod.rs lines 352-404: `Swapchain::new` on the success path assembles the
bundle; every `SwapchainImage` starts with a `NULL_HANDLE` gate back-reference
(via `SwapchainImage::new`). -/
def Swapchain.new (init : SwapchainInit) : Swapchain :=
  { images := init.images.map SwapchainImage.new
    swapchain := init.swapchain
    pipeline := init.pipeline
    pipeline_layout := init.pipeline_layout
    render_pass := init.render_pass
    vertex_shader_module := init.vertex_shader_module
    fragment_shader_module := init.fragment_shader_module
    vertex_buffer := init.vertex_buffer
    vertex_buffer_memory := init.vertex_buffer_memory }

/-- Ordered trace of driver invocations made by the embedded operations.  An
event is recorded when the corresponding driver call is issued. -/
inductive Event where
  | waitFence (handle : Nat)
  | acquireImage (index : Nat)
  | setImageFence (imageIndex : Nat) (handle : Nat)
  | resetFence (handle : Nat)
  | submit (commandBuffer : Nat) (signalFence : Nat)
  | present (imageIndex : Nat)
  | deviceWaitIdle
  | freeMemory (handle : Nat)
  | destroyBuffer (handle : Nat)
  | destroyFramebuffer (handle : Nat)
  | destroyImageView (handle : Nat)
  | freeCommandBuffer (handle : Nat)
  | destroyPipeline (handle : Nat)
  | destroyPipelineLayout (handle : Nat)
  | destroyRenderPass (handle : Nat)
  | destroyShaderModule (handle : Nat)
  | destroySwapchain (handle : Nat)
deriving DecidableEq, Repr

/-- mod.rs lines 414-428: the release calls of `Swapchain::destroy`, in source
order: vertex-buffer memory and buffer; per image framebuffer, image view and
command buffer; pipeline; pipeline layout; render pass; vertex then fragment
shader module; the swapchain handle. -/
def Swapchain.releaseEvents (sc : Swapchain) : List Event :=
  [Event.freeMemory sc.vertex_buffer_memory,
   Event.destroyBuffer sc.vertex_buffer]
  ++ sc.images.flatMap (fun img =>
      [Event.destroyFramebuffer img.framebuffer,
       Event.destroyImageView img.image_view,
       Event.freeCommandBuffer img.command_buffer])
  ++ [Event.destroyPipeline sc.pipeline,
      Event.destroyPipelineLayout sc.pipeline_layout,
      Event.destroyRenderPass sc.render_pass,
      Event.destroyShaderModule sc.vertex_shader_module,
      Event.destroyShaderModule sc.fragment_shader_module,
      Event.destroySwapchain sc.swapchain]

/-- mod.rs lines 406-431: `Swapchain::destroy` first calls
`dp.device_wait_idle(device).map_err(to_vulkan)?` and only on its success
performs the release calls.  `idle` is the driver's outcome for the idle
wait. -/
def Swapchain.destroy (sc : Swapchain) (idle : Except Error Unit) :
    Except Error Unit × List Event :=
  match idle with
  | Except.error e => (Except.error e, [Event.deviceWaitIdle])
  | Except.ok _ => (Except.ok (), Event.deviceWaitIdle :: sc.releaseEvents)

/-- The `Vulkan` struct (mod.rs lines 45-60) restricted to the fields the
frame-scheduling protocol reads or writes: the optional swapchain bundle, the
in-flight frame ring and the current frame index.  The remaining fields
(instance, device, queues, surface, command pool, function pointers) are
opaque handles that `draw_frame` and `change_framebuffer` only pass through
to driver calls, and are omitted. -/
structure Vulkan where
  swapchain : Option Swapchain
  inflight_frames : List InFlightFrame
  current_frame : Nat
deriving DecidableEq, Repr

/-- mod.rs lines 100-121 (`Vulkan::new`, success path, scheduling fields):
`MAX_FRAMES_IN_FLIGHT` in-flight frames, `current_frame: 0`,
`swapchain: None`.  `start` is the driver's first handle value. -/
def Vulkan.new (start : Nat) : Vulkan :=
  { swapchain := none
    inflight_frames := (mkInflightFrames MAX_FRAMES_IN_FLIGHT start).1
    current_frame := 0 }

/-- Driver outcomes for the calls one `draw_frame` invocation may make, in the
order the code can issue them (mod.rs lines 154-286).  A field is read only
when the corresponding call is reached. -/
structure DrawDriver where
  /-- outcome of `Swapchain::new` when `create_swapchain` runs (mod.rs 155-157) -/
  create_swapchain : Except Error SwapchainInit
  /-- `wait_for_fences` on the current slot's fence (mod.rs 167-174) -/
  wait_slot_fence : Except Error Unit
  /-- `acquire_next_image_khr` (mod.rs 175-184); `ok` carries the image index -/
  acquire_next_image : Except Error Nat
  /-- `wait_for_fences` on the image's gate back-reference (mod.rs 207-216) -/
  wait_image_fence : Except Error Unit
  /-- `reset_fences` (mod.rs 239-241) -/
  reset_fences : Except Error Unit
  /-- `queue_submit` (mod.rs 243-250) -/
  queue_submit : Except Error Unit
  /-- `queue_present_khr` (mod.rs 265-269) -/
  queue_present : Except Error Unit
  /-- `device_wait_idle` inside `Swapchain::destroy`, when invoked -/
  device_wait_idle : Except Error Unit
deriving Repr

/-- mod.rs lines 154-157: the bundle in use after `draw_frame`'s first step —
the existing one, or the one `create_swapchain` builds when absent (`none`
when that creation fails, in which case the error propagates). -/
def Vulkan.bundleAfterEnsure (v : Vulkan) (d : DrawDriver) : Option Swapchain :=
  match v.swapchain with
  | some sc => some sc
  | none =>
    match d.create_swapchain with
    | Except.ok init => some (Swapchain.new init)
    | Except.error _ => none

/-- mod.rs lines 159-286: the body of `Vulkan::draw_frame` once a bundle is
known to exist (`self.swapchain.as_mut().unwrap()` yields `sc`, and
`v1.swapchain = some sc` at every call site).  Mirrors the source control
flow: look up the current slot; wait on its fence; acquire; on
`ERROR_OUT_OF_DATE_KHR` destroy the bundle and return `Ok`; bounds-check the
image index; wait on the image's gate back-reference when it is not
`NULL_HANDLE`; update the back-reference to the current slot's fence; reset
the slot fence; submit; present; on present `ERROR_OUT_OF_DATE_KHR` destroy
the bundle and return `Ok`; otherwise advance `current_frame` modulo
`MAX_FRAMES_IN_FLIGHT`. -/
def Vulkan.draw_frame_ready (v1 : Vulkan) (sc : Swapchain) (d : DrawDriver) :
    Except Error Unit × Vulkan × List Event :=
  match v1.inflight_frames[v1.current_frame]? with
  | none => (Except.error (Error.Other ("invalid current frame")), v1, [])
  | some current_inflight_frame =>
    let slotFence := current_inflight_frame.in_flight_fence.handle
    let tr0 := [Event.waitFence slotFence]
    match d.wait_slot_fence with
    | Except.error e => (Except.error e, v1, tr0)
    | Except.ok _ =>
      match d.acquire_next_image with
      | Except.error e =>
        if e.isOutOfDate then
          match sc.destroy d.device_wait_idle with
          | (Except.error e2, evs) =>
            (Except.error e2, { v1 with swapchain := none }, tr0 ++ evs)
          | (Except.ok _, evs) =>
            (Except.ok (), { v1 with swapchain := none }, tr0 ++ evs)
        else (Except.error e, v1, tr0)
      | Except.ok image_index_index =>
        let tr1 := tr0 ++ [Event.acquireImage image_index_index]
        match sc.images[image_index_index]? with
        | none =>
          (Except.error (Error.Other ("invalid current image index")), v1, tr1)
        | some swapchain_image =>
          let tr2 := tr1 ++
            (if swapchain_image.in_flight_fence ≠ NULL_HANDLE
             then [Event.waitFence swapchain_image.in_flight_fence] else [])
          let gateResult : Except Error Unit :=
            if swapchain_image.in_flight_fence ≠ NULL_HANDLE
            then d.wait_image_fence else Except.ok ()
          match gateResult with
          | Except.error e => (Except.error e, v1, tr2)
          | Except.ok _ =>
            let sc2 : Swapchain :=
              { sc with
                images := sc.images.set image_index_index
                  ({ swapchain_image with in_flight_fence := slotFence }) }
            let v2 : Vulkan := { v1 with swapchain := some sc2 }
            let tr4 := tr2 ++
              [Event.setImageFence image_index_index slotFence,
               Event.resetFence slotFence]
            match d.reset_fences with
            | Except.error e => (Except.error e, v2, tr4)
            | Except.ok _ =>
              let tr5 := tr4 ++
                [Event.submit swapchain_image.command_buffer slotFence]
              match d.queue_submit with
              | Except.error e => (Except.error e, v2, tr5)
              | Except.ok _ =>
                let tr6 := tr5 ++ [Event.present image_index_index]
                match d.queue_present with
                | Except.ok _ =>
                  (Except.ok (),
                   { v2 with current_frame :=
                      (v2.current_frame + 1) % MAX_FRAMES_IN_FLIGHT }, tr6)
                | Except.error e =>
                  if e.isOutOfDate then
                    match sc2.destroy d.device_wait_idle with
                    | (Except.error e2, evs) =>
                      (Except.error e2, { v2 with swapchain := none }, tr6 ++ evs)
                    | (Except.ok _, evs) =>
                      (Except.ok (), { v2 with swapchain := none }, tr6 ++ evs)
                  else (Except.error e, v2, tr6)

/-- mod.rs lines 154-286: `Vulkan::draw_frame`.  Returns the call's result,
the post-state, and the ordered driver-invocation trace.  First step
(lines 155-157): when no bundle exists, run `create_swapchain`, propagating
its failure; then run the ready body on the (existing or just-created)
bundle. -/
def Vulkan.draw_frame (v : Vulkan) (d : DrawDriver) :
    Except Error Unit × Vulkan × List Event :=
  match v.swapchain with
  | none =>
    match d.create_swapchain with
    | Except.error e => (Except.error e, v, [])
    | Except.ok init =>
      Vulkan.draw_frame_ready
        { v with swapchain := some (Swapchain.new init) } (Swapchain.new init) d
  | some sc => Vulkan.draw_frame_ready v sc d

/-- mod.rs lines 124-130: `change_framebuffer` destroys the bundle when one
exists (propagating a destroy failure) and otherwise does nothing. -/
def Vulkan.change_framebuffer (v : Vulkan) (idle : Except Error Unit) :
    Except Error Unit × Vulkan × List Event :=
  match v.swapchain with
  | some sc =>
    let (r, evs) := sc.destroy idle
    (r, { v with swapchain := none }, evs)
  | none => (Except.ok (), v, [])

/-- Iterated `draw_frame` over a list of per-call driver outcomes. -/
def drawFrames (v : Vulkan) : List DrawDriver → Vulkan
  | [] => v
  | d :: ds => drawFrames (Vulkan.draw_frame v d).2.1 ds

/-- A call that returned `Ok` and did not take an outdated-surface destroy
path: in `draw_frame` those are exactly the `Ok` outcomes that leave a bundle
allocated. -/
def allOkNotOutdated : Vulkan → List DrawDriver → Bool
  | _, [] => true
  | v, d :: ds =>
    let step := Vulkan.draw_frame v d
    (match step.1 with
     | Except.ok _ => true
     | Except.error _ => false)
    && step.2.1.swapchain.isSome
    && allOkNotOutdated step.2.1 ds

/- ## Physical-device selection (vk_physical_device.rs) -/

/-- vk-sys `VkPhysicalDeviceProperties`, restricted to the fields
`find_physical_device` reads. -/
structure PhysicalDeviceProperties where
  deviceType : Nat
  deviceName : String
deriving DecidableEq, Repr

/-- One enumerated physical device: its handle, its properties, and the
extension names `enumerate_device_extension_properties` reports for it. -/
structure PhysicalDevice where
  handle : Nat
  properties : PhysicalDeviceProperties
  extensions : List String
deriving DecidableEq, Repr

/-- vk_physical_device.rs lines 49-67: `check_device_extensions` removes every
reported extension name from the required set and succeeds iff the set is then
empty — i.e. iff every required extension is among the reported ones. -/
def check_device_extensions (dev : PhysicalDevice) (req_dev_exts : List String) : Bool :=
  req_dev_exts.all (fun ext => dev.extensions.contains ext)

/-- vk_physical_device.rs lines 9-47: `find_physical_device` walks the
enumerated devices in order and selects the first one with
`properties.deviceType & vk::PHYSICAL_DEVICE_TYPE_DISCRETE_GPU != 0` that also
passes `check_device_extensions`; when none matches it fails with
`Error::Other` via `to_other` (message "no discrete GPU found"). -/
def find_physical_device (physical_devices : List PhysicalDevice)
    (required_device_extensions : List String) : Except Error Nat :=
  match physical_devices.find? (fun dev =>
      (dev.properties.deviceType &&& PHYSICAL_DEVICE_TYPE_DISCRETE_GPU ≠ 0)
        && check_device_extensions dev required_device_extensions) with
  | some dev => Except.ok dev.handle
  | none => Except.error (Error.Other ("Other error: no discrete GPU found"))

/- ## Swapchain image count (vk_swapchain.rs line 49) -/

/-- vk-sys `VkSurfaceCapabilitiesKHR`, restricted to the two image-count
fields (both `u32`). -/
structure SurfaceCapabilitiesKHR where
  minImageCount : Nat
  maxImageCount : Nat
deriving DecidableEq, Repr

/-- vk_swapchain.rs line 49:
`let image_count = (capabilities.minImageCount + 1).min(capabilities.maxImageCount);`
— `u32` addition, so the increment wraps modulo `2^32`. -/
def image_count (capabilities : SurfaceCapabilitiesKHR) : Nat :=
  Nat.min ((capabilities.minImageCount + 1) % 2 ^ 32) capabilities.maxImageCount

/- ## Vertex-buffer upload (vk_vertex_buffer.rs, swapchain.rs) -/

/-- Value of `size_of::<Vertex>()` for vertex.rs's `#[repr(C)] struct Vertex
{ pos: glm::Vec2, color: glm::Vec3 }`: 2 `f32` + 3 `f32`, 4-byte aligned,
no padding — 20 bytes. -/
def size_of_Vertex : Nat := 20

/-- vk_vertex_buffer.rs lines 10-23: `vertices.len()` — the three fixed
triangle vertices. -/
def vertices_len : Nat := 3

/-- vk_vertex_buffer.rs line 29 (and swapchain.rs line 675):
`size: (size_of::<Vertex>() * vertices.len()) as u64` — the declared buffer
size in bytes, also the length of the mapped region (line 58 / 706). -/
def vertex_buffer_size : Nat := size_of_Vertex * vertices_len

/-- vk_vertex_buffer.rs line 64 (and swapchain.rs line 712): the third
argument of `std::ptr::copy_nonoverlapping(vertices.as_ptr(), data as *mut
Vertex, buffer_info.size as usize)` — the code passes the byte size as the
count. -/
def copy_nonoverlapping_count : Nat := vertex_buffer_size

/-- Semantics of `std::ptr::copy_nonoverlapping::<T>`: it copies `count * size_of::<T>()`
bytes; here `T = Vertex`. -/
def copy_bytes_written (count : Nat) : Nat := count * size_of_Vertex

/-! ## Concrete instances used by witnesses and counterexamples -/

/-- A concrete in-flight frame ring of size two (handles 1..6, as
`Vulkan::new` would allocate). -/
def exSlots : List InFlightFrame := (mkInflightFrames MAX_FRAMES_IN_FLIGHT 1).1

/-- Concrete creation handles for the single image of the concrete bundle. -/
def exImageInit : ScImageInit :=
  { image := 110, image_view := 111, framebuffer := 112,
    command_buffer := 113 }

/-- Concrete driver-returned creation handles for a one-image bundle. -/
def exInit : SwapchainInit :=
  { swapchain := 100, render_pass := 101, vertex_shader_module := 102,
    fragment_shader_module := 103, pipeline_layout := 104, pipeline := 105,
    vertex_buffer := 106, vertex_buffer_memory := 107,
    images := [exImageInit] }

/-- A concrete scheduler state: one-image bundle present, two slots,
slot index 0. -/
def exVulkan : Vulkan :=
  { swapchain := some (Swapchain.new exInit), inflight_frames := exSlots,
    current_frame := 0 }

/-- A driver in which every call succeeds and acquisition yields image 0. -/
def exOkDriver : DrawDriver :=
  { create_swapchain := Except.ok exInit, wait_slot_fence := Except.ok (),
    acquire_next_image := Except.ok 0, wait_image_fence := Except.ok (),
    reset_fences := Except.ok (), queue_submit := Except.ok (),
    queue_present := Except.ok (), device_wait_idle := Except.ok () }

/-- Like `exOkDriver`, but acquisition reports the surface outdated. -/
def exOutdatedAcquireDriver : DrawDriver :=
  { exOkDriver with
    acquire_next_image := Except.error (Error.VulkanError ERROR_OUT_OF_DATE_KHR) }

/-- Like `exOkDriver`, but presentation reports the surface outdated. -/
def exOutdatedPresentDriver : DrawDriver :=
  { exOkDriver with
    queue_present := Except.error (Error.VulkanError ERROR_OUT_OF_DATE_KHR) }

/-- A concrete bundle with distinct handles and one image, for the teardown
ordering counterexample. -/
def exBundle : Swapchain := Swapchain.new exInit

/-- A concrete enumerated device of type
`VK_PHYSICAL_DEVICE_TYPE_VIRTUAL_GPU` (value 3, not discrete-class)
exposing the one required extension. -/
def exVirtualGpu : PhysicalDevice :=
  { handle := 7,
    properties := { deviceType := 3, deviceName := "some virtual gpu" },
    extensions := ["VK_KHR_swapchain"] }

/-! ## Helper lemmas -/

/-- Every image of a freshly built bundle carries a `NULL_HANDLE` gate
back-reference. -/
theorem new_image_fence_null (init : SwapchainInit) (i : Nat)
    (img : SwapchainImage)
    (h : (Swapchain.new init).images[i]? = some img) :
    img.in_flight_fence = NULL_HANDLE := by
  have h2 : (init.images.map SwapchainImage.new)[i]? = some img := h
  rw [List.getElem?_map] at h2
  cases h3 : init.images[i]? with
  | none => rw [h3] at h2; exact absurd h2 (by simp)
  | some raw =>
    rw [h3] at h2
    have h4 : SwapchainImage.new raw = img := by simpa using h2
    subst h4
    rfl

/-- The list `releaseEvents` never contains a submit event. -/
theorem releaseEvents_no_submit (sc : Swapchain) (cb f : Nat) :
    Event.submit cb f ∉ sc.releaseEvents := by
  simp only [Swapchain.releaseEvents, List.mem_append, List.mem_cons,
    List.mem_singleton, List.mem_flatMap]
  rintro (⟨h | h | h⟩ | ⟨img, _, h | h | h | h⟩ | h) <;> simp_all

/-- The list `releaseEvents` never contains a present event. -/
theorem releaseEvents_no_present (sc : Swapchain) (j : Nat) :
    Event.present j ∉ sc.releaseEvents := by
  simp only [Swapchain.releaseEvents, List.mem_append, List.mem_cons,
    List.mem_singleton, List.mem_flatMap]
  rintro (⟨h | h | h⟩ | ⟨img, _, h | h | h | h⟩ | h) <;> simp_all

/-- The functional image of mod.rs line 218,
`swapchain_image.in_flight_fence = current_inflight_frame.in_flight_fence;`:
the bundle with image `i` holding gate back-reference `f`. -/
def updatedBundle (sc : Swapchain) (i : Nat) (img : SwapchainImage) (f : Nat) :
    Swapchain :=
  { sc with images := sc.images.set i ({ img with in_flight_fence := f }) }

/-- Setting index `i` of a list known to hold `a` at `i` yields `b` at `i`. -/
theorem get?_set_self {α : Type} (l : List α) (i : Nat) (a b : α)
    (h : l[i]? = some a) : (l.set i b)[i]? = some b := by
  rcases List.getElem?_eq_some.mp h with ⟨hlt, _⟩
  exact List.getElem?_set_eq_of_lt b hlt

/-- When a bundle is available after the ensure step, `draw_frame` runs the
ready body on it, with the bundle recorded in the state. -/
theorem draw_frame_of_bundle (v : Vulkan) (d : DrawDriver) (sc : Swapchain)
    (hsc : v.bundleAfterEnsure d = some sc) :
    Vulkan.draw_frame v d =
      Vulkan.draw_frame_ready { v with swapchain := some sc } sc d := by
  cases hv : v.swapchain with
  | some sc0 =>
    have he : sc0 = sc := by
      simpa [Vulkan.bundleAfterEnsure, hv] using hsc
    subst he
    have hveq : { v with swapchain := some sc0 } = v := by
      cases v; simp_all
    rw [hveq]
    simp [Vulkan.draw_frame, hv]
  | none =>
    cases hc : d.create_swapchain with
    | error e => simp [Vulkan.bundleAfterEnsure, hv, hc] at hsc
    | ok init =>
      have he : Swapchain.new init = sc := by
        simpa [Vulkan.bundleAfterEnsure, hv, hc] using hsc
      subst he
      simp [Vulkan.draw_frame, hv, hc]

/-- Full-success run of the ready body: every driver call succeeds, the
acquired index is in range.  The call returns `Ok`, stores the slot's fence
in the image's back-reference, advances the slot index, and the trace lists
the calls in source order. -/
theorem draw_frame_ready_success_eq (v1 : Vulkan) (sc : Swapchain)
    (d : DrawDriver) (frame : InFlightFrame) (img : SwapchainImage) (i : Nat)
    (hframe : v1.inflight_frames[v1.current_frame]? = some frame)
    (hwait : d.wait_slot_fence = Except.ok ())
    (hacq : d.acquire_next_image = Except.ok i)
    (himg : sc.images[i]? = some img)
    (hgate : img.in_flight_fence ≠ NULL_HANDLE →
      d.wait_image_fence = Except.ok ())
    (hreset : d.reset_fences = Except.ok ())
    (hsubmit : d.queue_submit = Except.ok ())
    (hpresent : d.queue_present = Except.ok ()) :
    Vulkan.draw_frame_ready v1 sc d =
      (Except.ok (),
       { v1 with
         swapchain :=
           some (updatedBundle sc i img frame.in_flight_fence.handle),
         current_frame := (v1.current_frame + 1) % MAX_FRAMES_IN_FLIGHT },
       [Event.waitFence frame.in_flight_fence.handle, Event.acquireImage i]
       ++ (if img.in_flight_fence ≠ NULL_HANDLE
           then [Event.waitFence img.in_flight_fence] else [])
       ++ [Event.setImageFence i frame.in_flight_fence.handle,
           Event.resetFence frame.in_flight_fence.handle,
           Event.submit img.command_buffer frame.in_flight_fence.handle,
           Event.present i]) := by
  by_cases hnull : img.in_flight_fence = NULL_HANDLE
  · simp [Vulkan.draw_frame_ready, updatedBundle, hframe, hwait, hacq, himg,
      hnull, hreset, hsubmit, hpresent]
  · simp [Vulkan.draw_frame_ready, updatedBundle, hframe, hwait, hacq, himg,
      hnull, hgate hnull, hreset, hsubmit, hpresent]

/-- Acquire reports the surface outdated and the idle wait succeeds: the
ready body destroys the bundle and returns `Ok`; the trace is the slot-fence
wait, the idle wait, then the release calls. -/
theorem draw_frame_ready_acquire_outdated_eq (v1 : Vulkan) (sc : Swapchain)
    (d : DrawDriver) (frame : InFlightFrame)
    (hframe : v1.inflight_frames[v1.current_frame]? = some frame)
    (hwait : d.wait_slot_fence = Except.ok ())
    (hacq : d.acquire_next_image =
      Except.error (Error.VulkanError ERROR_OUT_OF_DATE_KHR))
    (hidle : d.device_wait_idle = Except.ok ()) :
    Vulkan.draw_frame_ready v1 sc d =
      (Except.ok (), { v1 with swapchain := none },
       Event.waitFence frame.in_flight_fence.handle ::
         Event.deviceWaitIdle :: sc.releaseEvents) := by
  simp [Vulkan.draw_frame_ready, hframe, hwait, hacq, hidle,
    Swapchain.destroy, Error.isOutOfDate]

/-- Present reports the surface outdated (after a successful acquire and
submit) and the idle wait succeeds: the ready body destroys the bundle and
returns `Ok`; `current_frame` is left untouched. -/
theorem draw_frame_ready_present_outdated_eq (v1 : Vulkan) (sc : Swapchain)
    (d : DrawDriver) (frame : InFlightFrame) (img : SwapchainImage) (i : Nat)
    (hframe : v1.inflight_frames[v1.current_frame]? = some frame)
    (hwait : d.wait_slot_fence = Except.ok ())
    (hacq : d.acquire_next_image = Except.ok i)
    (himg : sc.images[i]? = some img)
    (hgate : img.in_flight_fence ≠ NULL_HANDLE →
      d.wait_image_fence = Except.ok ())
    (hreset : d.reset_fences = Except.ok ())
    (hsubmit : d.queue_submit = Except.ok ())
    (hpresent : d.queue_present =
      Except.error (Error.VulkanError ERROR_OUT_OF_DATE_KHR))
    (hidle : d.device_wait_idle = Except.ok ()) :
    Vulkan.draw_frame_ready v1 sc d =
      (Except.ok (), { v1 with swapchain := none },
       ([Event.waitFence frame.in_flight_fence.handle, Event.acquireImage i]
        ++ (if img.in_flight_fence ≠ NULL_HANDLE
            then [Event.waitFence img.in_flight_fence] else [])
        ++ [Event.setImageFence i frame.in_flight_fence.handle,
            Event.resetFence frame.in_flight_fence.handle,
            Event.submit img.command_buffer frame.in_flight_fence.handle,
            Event.present i])
       ++ Event.deviceWaitIdle ::
          (updatedBundle sc i img frame.in_flight_fence.handle).releaseEvents) := by
  by_cases hnull : img.in_flight_fence = NULL_HANDLE
  · simp [Vulkan.draw_frame_ready, updatedBundle, hframe, hwait, hacq, himg,
      hnull, hreset, hsubmit, hpresent, hidle, Swapchain.destroy,
      Error.isOutOfDate]
  · simp [Vulkan.draw_frame_ready, updatedBundle, hframe, hwait, hacq, himg,
      hnull, hgate hnull, hreset, hsubmit, hpresent, hidle, Swapchain.destroy,
      Error.isOutOfDate]

/-- The ready body never adds, removes or replaces an in-flight frame slot. -/
theorem draw_frame_ready_inflight (v1 : Vulkan) (sc : Swapchain)
    (d : DrawDriver) :
    (Vulkan.draw_frame_ready v1 sc d).2.1.inflight_frames =
      v1.inflight_frames := by
  simp only [Vulkan.draw_frame_ready]
  repeat' split <;> try rfl

/-! ## Claims -/

/-- C5: for every slot index `i` in `[0, MAX_FRAMES_IN_FLIGHT)`, the slot
created by `Vulkan::new` carries an in-flight fence built by
`create_signaled_fence`, whose `FenceCreateInfo.flags` is
`FENCE_CREATE_SIGNALED_BIT`; hence the gate starts in the signaled state and
the first wait on each slot's gate succeeds immediately. -/
theorem C5_slot_gates_created_signaled (start i : Nat)
    (h : i < MAX_FRAMES_IN_FLIGHT) :
    ∃ frame, (Vulkan.new start).inflight_frames[i]? = some frame ∧
      frame.in_flight_fence.createFlags = FENCE_CREATE_SIGNALED_BIT ∧
      frame.in_flight_fence.createdSignaled = true := by
  have h2 : i < 2 := h
  interval_cases i
  · exact ⟨(InFlightFrame.new start).1, rfl, rfl, by
      simp [InFlightFrame.new, create_signaled_fence, Fence.createdSignaled,
        FENCE_CREATE_SIGNALED_BIT]⟩
  · exact ⟨(InFlightFrame.new (start + 3)).1, rfl, rfl, by
      simp [InFlightFrame.new, create_signaled_fence, Fence.createdSignaled,
        FENCE_CREATE_SIGNALED_BIT]⟩

/-- Witness for C5 at slot 0 with first handle 1. -/
theorem C5_witness :
    0 < MAX_FRAMES_IN_FLIGHT ∧
    ∃ frame, (Vulkan.new 1).inflight_frames[0]? = some frame ∧
      frame.in_flight_fence.createFlags = FENCE_CREATE_SIGNALED_BIT ∧
      frame.in_flight_fence.createdSignaled = true :=
  ⟨by decide, C5_slot_gates_created_signaled 1 0 (by decide)⟩

/-- C6 (amended): `Swapchain::destroy` always issues the device-idle wait
first — on an idle-wait failure nothing is released — and on idle success
releases, in order: the vertex buffer (memory then buffer), the per-image
resources (framebuffer, image view, command buffer for each image), the
pipeline, the pipeline layout, the render pass, the two shader modules
(vertex then fragment), and finally the swapchain handle. -/
theorem C6_destroy_idle_then_ordered_release (sc : Swapchain) :
    (∀ idle, ((Swapchain.destroy sc idle).2).head? = some Event.deviceWaitIdle) ∧
    (Swapchain.destroy sc (Except.ok ())).2 =
      Event.deviceWaitIdle ::
        ([Event.freeMemory sc.vertex_buffer_memory,
          Event.destroyBuffer sc.vertex_buffer]
         ++ sc.images.flatMap (fun img =>
             [Event.destroyFramebuffer img.framebuffer,
              Event.destroyImageView img.image_view,
              Event.freeCommandBuffer img.command_buffer])
         ++ [Event.destroyPipeline sc.pipeline,
             Event.destroyPipelineLayout sc.pipeline_layout,
             Event.destroyRenderPass sc.render_pass,
             Event.destroyShaderModule sc.vertex_shader_module,
             Event.destroyShaderModule sc.fragment_shader_module,
             Event.destroySwapchain sc.swapchain]) ∧
    (∀ e, (Swapchain.destroy sc (Except.error e)).2 = [Event.deviceWaitIdle]) := by
  refine ⟨fun idle => ?_, rfl, fun e => rfl⟩
  cases idle <;> rfl

/-- C6 counterexample: on the concrete bundle `exBundle` the destroy trace
releases the render pass strictly before the vertex shader module, so the
claimed order (pipeline, shader modules, render pass, swapchain) does not
hold on the code. -/
theorem C6_counterexample_render_pass_before_shaders :
    Event.destroyShaderModule exBundle.vertex_shader_module ∈
      (Swapchain.destroy exBundle (Except.ok ())).2 ∧
    (Swapchain.destroy exBundle (Except.ok ())).2.indexOf
        (Event.destroyRenderPass exBundle.render_pass) <
      (Swapchain.destroy exBundle (Except.ok ())).2.indexOf
        (Event.destroyShaderModule exBundle.vertex_shader_module) := by decide

/-- C7: exactly `MAX_FRAMES_IN_FLIGHT = 2` frame slots are created by
`Vulkan::new`, and neither `draw_frame` (any driver outcome) nor
`change_framebuffer` changes the slot ring. -/
theorem C7_slot_ring_fixed :
    MAX_FRAMES_IN_FLIGHT = 2 ∧
    (∀ start, (Vulkan.new start).inflight_frames.length = MAX_FRAMES_IN_FLIGHT) ∧
    (∀ v d, (Vulkan.draw_frame v d).2.1.inflight_frames = v.inflight_frames) ∧
    (∀ v idle,
      (Vulkan.change_framebuffer v idle).2.1.inflight_frames =
        v.inflight_frames) := by
  refine ⟨rfl, fun start => rfl, fun v d => ?_, fun v idle => ?_⟩
  · unfold Vulkan.draw_frame
    cases hv : v.swapchain with
    | none =>
      cases hc : d.create_swapchain with
      | error e => rfl
      | ok init =>
        simp [draw_frame_ready_inflight]
    | some sc => simp [draw_frame_ready_inflight]
  · unfold Vulkan.change_framebuffer
    cases hv : v.swapchain with
    | none => rfl
    | some sc => cases idle <;> simp [Swapchain.destroy]

/-- C8: `find_physical_device` tests `deviceType & PHYSICAL_DEVICE_TYPE_DISCRETE_GPU != 0`
— a bitwise AND on an enumeration value — so the concrete device
`exVirtualGpu` of type `VK_PHYSICAL_DEVICE_TYPE_VIRTUAL_GPU` (3), which is
not discrete-class, is selected when it exposes the required extension set,
contradicting the claim (and the code's own "no discrete GPU found" error
message). -/
theorem C8_virtual_gpu_selected :
    exVirtualGpu.properties.deviceType ≠ PHYSICAL_DEVICE_TYPE_DISCRETE_GPU ∧
    find_physical_device [exVirtualGpu] ["VK_KHR_swapchain"] =
      Except.ok exVirtualGpu.handle :=
  ⟨by decide, rfl⟩

/-- C9: the requested image count is the surface's minimum image count plus
one, capped at the surface's maximum image count (whenever the `u32`
increment does not wrap, which holds for every real minimum). -/
theorem C9_image_count_min_plus_one_capped (caps : SurfaceCapabilitiesKHR)
    (h : caps.minImageCount + 1 < 2 ^ 32) :
    image_count caps = Nat.min (caps.minImageCount + 1) caps.maxImageCount := by
  unfold image_count
  rw [Nat.mod_eq_of_lt h]

/-- Witness for C9 at `minImageCount = 2`, `maxImageCount = 3`. -/
theorem C9_witness :
    (2 + 1 < 2 ^ 32) ∧
    image_count { minImageCount := 2, maxImageCount := 3 } =
      Nat.min (2 + 1) 3 :=
  ⟨by decide,
   C9_image_count_min_plus_one_capped
     { minImageCount := 2, maxImageCount := 3 } (by decide)⟩

/-- C10: the count passed to `copy_nonoverlapping` is `buffer_info.size`
(the byte size, 60), not the vertex count (3), so the copy writes
`60 * size_of::<Vertex>() = 1200` bytes — far past the 60-byte mapped
allocation — contradicting the claim that exactly the declared buffer size
is written. -/
theorem C10_copy_count_is_byte_size_not_vertex_count :
    copy_nonoverlapping_count = size_of_Vertex * vertices_len ∧
    copy_nonoverlapping_count ≠ vertices_len ∧
    vertex_buffer_size < copy_bytes_written copy_nonoverlapping_count ∧
    copy_bytes_written copy_nonoverlapping_count = 1200 ∧
    vertex_buffer_size = 60 := by decide

/-- Any `draw_frame` call that returns `Ok` with a bundle still allocated
(i.e. that did not take an outdated-surface destroy path) advances
`current_frame` by exactly one modulo `MAX_FRAMES_IN_FLIGHT`. -/
theorem draw_frame_ready_outcome (v1 : Vulkan) (sc : Swapchain)
    (d : DrawDriver) :
    ((Vulkan.draw_frame_ready v1 sc d).1 = Except.ok () ∧
      (Vulkan.draw_frame_ready v1 sc d).2.1.current_frame =
        (v1.current_frame + 1) % MAX_FRAMES_IN_FLIGHT) ∨
    (Vulkan.draw_frame_ready v1 sc d).2.1.swapchain = none ∨
    (∃ e, (Vulkan.draw_frame_ready v1 sc d).1 = Except.error e) := by
  simp only [Vulkan.draw_frame_ready]
  repeat' split
  all_goals try exact Or.inl ⟨rfl, rfl⟩
  all_goals try exact Or.inr (Or.inl rfl)
  all_goals exact Or.inr (Or.inr ⟨_, rfl⟩)

theorem draw_frame_ready_advance (v1 : Vulkan) (sc : Swapchain)
    (d : DrawDriver)
    (hok : (Vulkan.draw_frame_ready v1 sc d).1 = Except.ok ())
    (hsome : ((Vulkan.draw_frame_ready v1 sc d).2.1.swapchain).isSome = true) :
    (Vulkan.draw_frame_ready v1 sc d).2.1.current_frame =
      (v1.current_frame + 1) % MAX_FRAMES_IN_FLIGHT := by
  rcases draw_frame_ready_outcome v1 sc d with ⟨_, h⟩ | h | ⟨e, h⟩
  · exact h
  · rw [h] at hsome; simp at hsome
  · rw [h] at hok; simp at hok

/-- Lifting of `draw_frame_ready_advance` to `draw_frame`. -/
theorem draw_frame_advance (v : Vulkan) (d : DrawDriver)
    (hok : (Vulkan.draw_frame v d).1 = Except.ok ())
    (hsome : ((Vulkan.draw_frame v d).2.1.swapchain).isSome = true) :
    (Vulkan.draw_frame v d).2.1.current_frame =
      (v.current_frame + 1) % MAX_FRAMES_IN_FLIGHT := by
  cases hv : v.swapchain with
  | some sc =>
    have h1 : Vulkan.draw_frame v d = Vulkan.draw_frame_ready v sc d := by
      unfold Vulkan.draw_frame; rw [hv]
    rw [h1] at hok hsome ⊢
    exact draw_frame_ready_advance v sc d hok hsome
  | none =>
    cases hc : d.create_swapchain with
    | error e =>
      have h1 : Vulkan.draw_frame v d = (Except.error e, v, []) := by
        unfold Vulkan.draw_frame; rw [hv, hc]
      rw [h1] at hok
      simp at hok
    | ok init =>
      have h1 : Vulkan.draw_frame v d =
          Vulkan.draw_frame_ready
            ({ v with swapchain := some (Swapchain.new init) })
            (Swapchain.new init) d := by
        unfold Vulkan.draw_frame; rw [hv, hc]
      rw [h1] at hok hsome ⊢
      exact draw_frame_ready_advance _ _ d hok hsome

/-- Iterating successful non-outdated calls adds the call count to
`current_frame` modulo the slot count. -/
theorem drawFrames_mod (ds : List DrawDriver) :
    ∀ v : Vulkan, v.current_frame < MAX_FRAMES_IN_FLIGHT →
      allOkNotOutdated v ds = true →
      (drawFrames v ds).current_frame =
        (v.current_frame + ds.length) % MAX_FRAMES_IN_FLIGHT := by
  induction ds with
  | nil =>
    intro v hlt _
    simpa [drawFrames] using (Nat.mod_eq_of_lt hlt).symm
  | cons d ds ih =>
    intro v hlt hall
    simp only [allOkNotOutdated, Bool.and_eq_true] at hall
    obtain ⟨⟨hok0, hsome⟩, hrest⟩ := hall
    have hok : (Vulkan.draw_frame v d).1 = Except.ok () := by
      cases hres : (Vulkan.draw_frame v d).1 with
      | ok u => cases u; rfl
      | error e => rw [hres] at hok0; simp at hok0
    have hadv := draw_frame_advance v d hok hsome
    have hlt2 : (Vulkan.draw_frame v d).2.1.current_frame <
        MAX_FRAMES_IN_FLIGHT := by
      rw [hadv]
      exact Nat.mod_lt _ (by decide)
    have hih := ih (Vulkan.draw_frame v d).2.1 hlt2 hrest
    simp only [drawFrames] at hih ⊢
    rw [hih, hadv, Nat.mod_add_mod]
    simp only [MAX_FRAMES_IN_FLIGHT, List.length_cons]
    omega

/-- C1: when acquisition reports the surface outdated (and the destroy-side
idle wait succeeds), `draw_frame` destroys the bundle, returns `Ok`, draws no
frame (no submit or present call in the trace), and leaves the bundle absent;
the next call builds a fresh bundle before proceeding, and with a benign
driver that next call succeeds and leaves a bundle allocated. -/
theorem C1_acquire_outdated_destroys_then_rebuilds (v : Vulkan)
    (d : DrawDriver) (sc : Swapchain) (frame : InFlightFrame)
    (hsc : v.bundleAfterEnsure d = some sc)
    (hframe : v.inflight_frames[v.current_frame]? = some frame)
    (hwait : d.wait_slot_fence = Except.ok ())
    (hacq : d.acquire_next_image =
      Except.error (Error.VulkanError ERROR_OUT_OF_DATE_KHR))
    (hidle : d.device_wait_idle = Except.ok ()) :
    (Vulkan.draw_frame v d).1 = Except.ok () ∧
    (Vulkan.draw_frame v d).2.1.swapchain = none ∧
    (∀ cb f, Event.submit cb f ∉ (Vulkan.draw_frame v d).2.2) ∧
    (∀ j, Event.present j ∉ (Vulkan.draw_frame v d).2.2) ∧
    (∀ d2 init2, d2.create_swapchain = Except.ok init2 →
      ((Vulkan.draw_frame v d).2.1).bundleAfterEnsure d2 =
        some (Swapchain.new init2)) ∧
    (∀ d2 init2 i2 img2,
      d2.create_swapchain = Except.ok init2 →
      d2.wait_slot_fence = Except.ok () →
      d2.acquire_next_image = Except.ok i2 →
      (Swapchain.new init2).images[i2]? = some img2 →
      d2.reset_fences = Except.ok () →
      d2.queue_submit = Except.ok () →
      d2.queue_present = Except.ok () →
      (Vulkan.draw_frame (Vulkan.draw_frame v d).2.1 d2).1 = Except.ok () ∧
      ((Vulkan.draw_frame (Vulkan.draw_frame v d).2.1 d2).2.1.swapchain).isSome
        = true) := by
  have hmain : Vulkan.draw_frame v d =
      (Except.ok (), { v with swapchain := none },
       Event.waitFence frame.in_flight_fence.handle ::
         Event.deviceWaitIdle :: sc.releaseEvents) := by
    rw [draw_frame_of_bundle v d sc hsc]
    exact draw_frame_ready_acquire_outdated_eq _ sc d frame hframe hwait hacq
      hidle
  refine ⟨by rw [hmain], by rw [hmain], ?_, ?_, ?_, ?_⟩
  · intro cb f hmem
    rw [hmain] at hmem
    simp only [List.mem_cons] at hmem
    rcases hmem with h | h | h
    · simp at h
    · simp at h
    · exact releaseEvents_no_submit sc cb f h
  · intro j hmem
    rw [hmain] at hmem
    simp only [List.mem_cons] at hmem
    rcases hmem with h | h | h
    · simp at h
    · simp at h
    · exact releaseEvents_no_present sc j h
  · intro d2 init2 hc2
    rw [hmain]
    simp [Vulkan.bundleAfterEnsure, hc2]
  · intro d2 init2 i2 img2 hc2 hw2 ha2 hi2 hr2 hs2 hp2
    rw [hmain]
    have hnull2 : img2.in_flight_fence = NULL_HANDLE :=
      new_image_fence_null init2 i2 img2 hi2
    have h1 : Vulkan.draw_frame ({ v with swapchain := none }) d2 =
        Vulkan.draw_frame_ready
          ({ v with swapchain := some (Swapchain.new init2) })
          (Swapchain.new init2) d2 := by
      unfold Vulkan.draw_frame
      simp [hc2]
    rw [h1,
      draw_frame_ready_success_eq
        ({ v with swapchain := some (Swapchain.new init2) })
        (Swapchain.new init2) d2 frame img2 i2 hframe hw2 ha2 hi2
        (fun hne => absurd hnull2 hne) hr2 hs2 hp2]
    exact ⟨rfl, rfl⟩

/-- Witness for C1: on the concrete state and drivers, the hypotheses hold,
the call returns `Ok` and leaves no bundle. -/
theorem C1_witness :
    exVulkan.bundleAfterEnsure exOutdatedAcquireDriver =
      some (Swapchain.new exInit) ∧
    (Vulkan.draw_frame exVulkan exOutdatedAcquireDriver).1 = Except.ok () ∧
    (Vulkan.draw_frame exVulkan exOutdatedAcquireDriver).2.1.swapchain =
      none :=
  ⟨rfl,
   (C1_acquire_outdated_destroys_then_rebuilds exVulkan
     exOutdatedAcquireDriver (Swapchain.new exInit) (InFlightFrame.new 1).1
     rfl rfl rfl rfl rfl).1,
   (C1_acquire_outdated_destroys_then_rebuilds exVulkan
     exOutdatedAcquireDriver (Swapchain.new exInit) (InFlightFrame.new 1).1
     rfl rfl rfl rfl rfl).2.1⟩

/-- C2: when presentation reports the surface outdated after a successful
acquire and submit (and the destroy-side idle wait succeeds), `draw_frame`
destroys the bundle, returns `Ok`, and does not advance `current_frame`;
the next call builds a fresh bundle before proceeding, and with a benign
driver that next call succeeds and leaves a bundle allocated. -/
theorem C2_present_outdated_destroys_keeps_counter (v : Vulkan)
    (d : DrawDriver) (sc : Swapchain) (frame : InFlightFrame)
    (img : SwapchainImage) (i : Nat)
    (hsc : v.bundleAfterEnsure d = some sc)
    (hframe : v.inflight_frames[v.current_frame]? = some frame)
    (hwait : d.wait_slot_fence = Except.ok ())
    (hacq : d.acquire_next_image = Except.ok i)
    (himg : sc.images[i]? = some img)
    (hgate : img.in_flight_fence ≠ NULL_HANDLE →
      d.wait_image_fence = Except.ok ())
    (hreset : d.reset_fences = Except.ok ())
    (hsubmit : d.queue_submit = Except.ok ())
    (hpresent : d.queue_present =
      Except.error (Error.VulkanError ERROR_OUT_OF_DATE_KHR))
    (hidle : d.device_wait_idle = Except.ok ()) :
    (Vulkan.draw_frame v d).1 = Except.ok () ∧
    (Vulkan.draw_frame v d).2.1.swapchain = none ∧
    (Vulkan.draw_frame v d).2.1.current_frame = v.current_frame ∧
    (∀ d2 init2, d2.create_swapchain = Except.ok init2 →
      ((Vulkan.draw_frame v d).2.1).bundleAfterEnsure d2 =
        some (Swapchain.new init2)) ∧
    (∀ d2 init2 i2 img2,
      d2.create_swapchain = Except.ok init2 →
      d2.wait_slot_fence = Except.ok () →
      d2.acquire_next_image = Except.ok i2 →
      (Swapchain.new init2).images[i2]? = some img2 →
      d2.reset_fences = Except.ok () →
      d2.queue_submit = Except.ok () →
      d2.queue_present = Except.ok () →
      (Vulkan.draw_frame (Vulkan.draw_frame v d).2.1 d2).1 = Except.ok () ∧
      ((Vulkan.draw_frame (Vulkan.draw_frame v d).2.1 d2).2.1.swapchain).isSome
        = true) := by
  have hmain : Vulkan.draw_frame v d =
      (Except.ok (), { v with swapchain := none },
       ([Event.waitFence frame.in_flight_fence.handle, Event.acquireImage i]
        ++ (if img.in_flight_fence ≠ NULL_HANDLE
            then [Event.waitFence img.in_flight_fence] else [])
        ++ [Event.setImageFence i frame.in_flight_fence.handle,
            Event.resetFence frame.in_flight_fence.handle,
            Event.submit img.command_buffer frame.in_flight_fence.handle,
            Event.present i])
       ++ Event.deviceWaitIdle ::
          (updatedBundle sc i img frame.in_flight_fence.handle).releaseEvents) := by
    rw [draw_frame_of_bundle v d sc hsc]
    exact draw_frame_ready_present_outdated_eq _ sc d frame img i hframe hwait
      hacq himg hgate hreset hsubmit hpresent hidle
  refine ⟨by rw [hmain], by rw [hmain], by rw [hmain], ?_, ?_⟩
  · intro d2 init2 hc2
    rw [hmain]
    simp [Vulkan.bundleAfterEnsure, hc2]
  · intro d2 init2 i2 img2 hc2 hw2 ha2 hi2 hr2 hs2 hp2
    rw [hmain]
    have hnull2 : img2.in_flight_fence = NULL_HANDLE :=
      new_image_fence_null init2 i2 img2 hi2
    have h1 : Vulkan.draw_frame ({ v with swapchain := none }) d2 =
        Vulkan.draw_frame_ready
          ({ v with swapchain := some (Swapchain.new init2) })
          (Swapchain.new init2) d2 := by
      unfold Vulkan.draw_frame
      simp [hc2]
    rw [h1,
      draw_frame_ready_success_eq
        ({ v with swapchain := some (Swapchain.new init2) })
        (Swapchain.new init2) d2 frame img2 i2 hframe hw2 ha2 hi2
        (fun hne => absurd hnull2 hne) hr2 hs2 hp2]
    exact ⟨rfl, rfl⟩

/-- Witness for C2: on the concrete state and drivers, the hypotheses hold,
the call returns `Ok`, destroys the bundle and keeps `current_frame`. -/
theorem C2_witness :
    exVulkan.bundleAfterEnsure exOutdatedPresentDriver =
      some (Swapchain.new exInit) ∧
    (Vulkan.draw_frame exVulkan exOutdatedPresentDriver).1 = Except.ok () ∧
    (Vulkan.draw_frame exVulkan exOutdatedPresentDriver).2.1.swapchain =
      none ∧
    (Vulkan.draw_frame exVulkan exOutdatedPresentDriver).2.1.current_frame =
      exVulkan.current_frame :=
  ⟨rfl,
   (C2_present_outdated_destroys_keeps_counter exVulkan
     exOutdatedPresentDriver (Swapchain.new exInit) (InFlightFrame.new 1).1
     (SwapchainImage.new exImageInit) 0
     rfl rfl rfl rfl rfl (fun h => absurd rfl h) rfl rfl rfl rfl).1,
   (C2_present_outdated_destroys_keeps_counter exVulkan
     exOutdatedPresentDriver (Swapchain.new exInit) (InFlightFrame.new 1).1
     (SwapchainImage.new exImageInit) 0
     rfl rfl rfl rfl rfl (fun h => absurd rfl h) rfl rfl rfl rfl).2.1,
   (C2_present_outdated_destroys_keeps_counter exVulkan
     exOutdatedPresentDriver (Swapchain.new exInit) (InFlightFrame.new 1).1
     (SwapchainImage.new exImageInit) 0
     rfl rfl rfl rfl rfl (fun h => absurd rfl h) rfl rfl rfl rfl).2.2.1⟩

/-- C3: in any `draw_frame` invocation that acquires image `i` and passes the
per-image gate, the trace begins with the slot-fence wait and the acquire,
followed — when the image's gate back-reference is set (non-null) — by a wait
on that referenced gate, and then by the update of the image's back-reference
to the current slot's gate; every later driver call (reset, submit, present,
destroy) comes after that update, and whenever the call leaves a bundle
allocated, image `i` of that bundle carries the current slot's gate handle. -/
theorem C3_per_image_gate_wait_then_update (v : Vulkan) (d : DrawDriver)
    (sc : Swapchain) (frame : InFlightFrame) (img : SwapchainImage) (i : Nat)
    (hsc : v.bundleAfterEnsure d = some sc)
    (hframe : v.inflight_frames[v.current_frame]? = some frame)
    (hwait : d.wait_slot_fence = Except.ok ())
    (hacq : d.acquire_next_image = Except.ok i)
    (himg : sc.images[i]? = some img)
    (hgate : img.in_flight_fence ≠ NULL_HANDLE →
      d.wait_image_fence = Except.ok ()) :
    (∃ rest,
      (Vulkan.draw_frame v d).2.2 =
        [Event.waitFence frame.in_flight_fence.handle, Event.acquireImage i]
        ++ (if img.in_flight_fence ≠ NULL_HANDLE
            then [Event.waitFence img.in_flight_fence] else [])
        ++ Event.setImageFence i frame.in_flight_fence.handle :: rest) ∧
    (∀ sc2, (Vulkan.draw_frame v d).2.1.swapchain = some sc2 →
      sc2.images[i]? =
        some ({ img with in_flight_fence := frame.in_flight_fence.handle })) := by
  rw [draw_frame_of_bundle v d sc hsc]
  have hset :
      (sc.images.set i
        ({ img with in_flight_fence := frame.in_flight_fence.handle }))[i]? =
      some ({ img with in_flight_fence := frame.in_flight_fence.handle }) :=
    get?_set_self _ _ _ _ himg
  by_cases hnull : img.in_flight_fence = NULL_HANDLE
  · simp only [Vulkan.draw_frame_ready, hframe, hwait, hacq, himg, hnull,
      ne_eq, not_true_eq_false, if_false, ite_false, List.nil_append,
      List.append_nil]
    cases hrf : d.reset_fences with
    | error e =>
      refine ⟨⟨_, by simp [hnull]; try rfl⟩, ?_⟩
      intro sc2 h2
      simp at h2
      subst h2
      simpa using hset
    | ok u =>
      cases hqs : d.queue_submit with
      | error e =>
        refine ⟨⟨_, by simp [hnull]; try rfl⟩, ?_⟩
        intro sc2 h2
        simp at h2
        subst h2
        simpa using hset
      | ok u2 =>
        cases hqp : d.queue_present with
        | ok u3 =>
          refine ⟨⟨_, by simp [hnull]; try rfl⟩, ?_⟩
          intro sc2 h2
          simp at h2
          subst h2
          simpa using hset
        | error e =>
          by_cases ho : e.isOutOfDate
          · cases hid : d.device_wait_idle with
            | error e2 =>
              refine ⟨⟨_, by simp [hnull, ho, Swapchain.destroy, hid]; try rfl⟩, ?_⟩
              intro sc2 h2
              simp [ho, Swapchain.destroy, hid] at h2
            | ok u4 =>
              refine ⟨⟨_, by simp [hnull, ho, Swapchain.destroy, hid]; try rfl⟩, ?_⟩
              intro sc2 h2
              simp [ho, Swapchain.destroy, hid] at h2
          · refine ⟨⟨_, by simp [hnull, ho]; try rfl⟩, ?_⟩
            intro sc2 h2
            simp [ho] at h2
            subst h2
            simpa using hset
  · have hg := hgate hnull
    simp only [Vulkan.draw_frame_ready, hframe, hwait, hacq, himg, hnull,
      ne_eq, not_false_eq_true, if_true, ite_true, hg]
    cases hrf : d.reset_fences with
    | error e =>
      refine ⟨⟨_, by simp [hnull]; try rfl⟩, ?_⟩
      intro sc2 h2
      simp at h2
      subst h2
      simpa using hset
    | ok u =>
      cases hqs : d.queue_submit with
      | error e =>
        refine ⟨⟨_, by simp [hnull]; try rfl⟩, ?_⟩
        intro sc2 h2
        simp at h2
        subst h2
        simpa using hset
      | ok u2 =>
        cases hqp : d.queue_present with
        | ok u3 =>
          refine ⟨⟨_, by simp [hnull]; try rfl⟩, ?_⟩
          intro sc2 h2
          simp at h2
          subst h2
          simpa using hset
        | error e =>
          by_cases ho : e.isOutOfDate
          · cases hid : d.device_wait_idle with
            | error e2 =>
              refine ⟨⟨_, by simp [hnull, ho, Swapchain.destroy, hid]; try rfl⟩, ?_⟩
              intro sc2 h2
              simp [ho, Swapchain.destroy, hid] at h2
            | ok u4 =>
              refine ⟨⟨_, by simp [hnull, ho, Swapchain.destroy, hid]; try rfl⟩, ?_⟩
              intro sc2 h2
              simp [ho, Swapchain.destroy, hid] at h2
          · refine ⟨⟨_, by simp [hnull, ho]; try rfl⟩, ?_⟩
            intro sc2 h2
            simp [ho] at h2
            subst h2
            simpa using hset

/-- Witness for C3: the concrete success run acquires image 0, whose gate
back-reference starts unset; the trace holds the update before the submit,
and the post-state image carries slot 0's fence handle. -/
theorem C3_witness :
    exVulkan.bundleAfterEnsure exOkDriver = some (Swapchain.new exInit) ∧
    (∃ rest,
      (Vulkan.draw_frame exVulkan exOkDriver).2.2 =
        [Event.waitFence 3, Event.acquireImage 0]
        ++ (if (SwapchainImage.new exImageInit).in_flight_fence ≠ NULL_HANDLE
            then [Event.waitFence (SwapchainImage.new exImageInit).in_flight_fence]
            else [])
        ++ Event.setImageFence 0 3 :: rest) :=
  ⟨rfl,
   (C3_per_image_gate_wait_then_update exVulkan exOkDriver
     (Swapchain.new exInit) (InFlightFrame.new 1).1
     (SwapchainImage.new exImageInit) 0
     rfl rfl rfl rfl rfl (fun h => absurd rfl h)).1⟩

/-- C4: starting from slot index 0, after `k` successful `draw_frame` calls
that do not hit the outdated-surface path, `current_frame = k mod
MAX_FRAMES_IN_FLIGHT`; and each such call advances the slot index by exactly
one modulo the slot count. -/
theorem C4_frame_counter_mod (v : Vulkan) (ds : List DrawDriver)
    (h0 : v.current_frame = 0)
    (hall : allOkNotOutdated v ds = true) :
    (drawFrames v ds).current_frame = ds.length % MAX_FRAMES_IN_FLIGHT ∧
    (∀ w e, (Vulkan.draw_frame w e).1 = Except.ok () →
      ((Vulkan.draw_frame w e).2.1.swapchain).isSome = true →
      (Vulkan.draw_frame w e).2.1.current_frame =
        (w.current_frame + 1) % MAX_FRAMES_IN_FLIGHT) := by
  constructor
  · have h := drawFrames_mod ds v (by rw [h0]; decide) hall
    rwa [h0, Nat.zero_add] at h
  · exact draw_frame_advance

/-- Witness for C4: one successful call from the concrete state moves the
slot index to `1 % 2`. -/
theorem C4_witness :
    exVulkan.current_frame = 0 ∧
    allOkNotOutdated exVulkan [exOkDriver] = true ∧
    (drawFrames exVulkan [exOkDriver]).current_frame =
      [exOkDriver].length % MAX_FRAMES_IN_FLIGHT :=
  ⟨rfl, by decide,
   (C4_frame_counter_mod exVulkan [exOkDriver] rfl (by decide)).1⟩

end Chunklands
